import Mathlib

/-!
Verification development for the `wf-api-client` WebFaction API client
(`wf-api-client/wfapiclient.py`).

The module's logic is shallowly embedded here:

* Python values exchanged with the XML-RPC server are modelled by `Value`
  (strings, ints, booleans, `None`, lists, dicts with string keys, which is
  all the XML-RPC layer produces for this client).
* Python `==` is modelled by `pyEq` (numeric cross-type equality between
  `bool` and `int`, elementwise on lists, key-based on dicts).
* `already_exists` embeds the module-level function of the same name.
* `Runner` embeds the `Runner` class state: `_run_results`, an ordered
  dictionary mapped to an ordered association list, initialised with the
  `success` and `failure` buckets.
* Exceptions are explicit: `PyResult` is a normal return or a propagating
  exception together with the state at raise time.
* The resource operations cited by the specification
  (`Mailbox.create_mailbox`, `Application.create_app`,
  `Cron.create_cron_job`, `Database.revoke_db_permissions`) are embedded
  against a `RemoteOutcome` parameter describing what the remote procedure
  does when actually invoked.
-/

namespace WF

/-- Python values as produced/consumed by the XML-RPC layer of the client:
strings, integers, booleans, `None`, lists and string-keyed dictionaries
(an ordered association list models the dict's insertion order). -/
inductive Value where
  | str (s : String)
  | int (n : Int)
  | bool (b : Bool)
  | none
  | list (vs : List Value)
  | dict (ps : List (String × Value))

/-- Python `repr` for `Value` (string escaping is not modelled; every
string used in this development is escape-free, where `repr` is exactly
single-quote wrapping). For non-strings `repr` and `str` agree. -/
def pyRepr : Value → String
  | .str s => "'" ++ s ++ "'"
  | .int n => toString n
  | .bool b => if b then "True" else "False"
  | .none => "None"
  | .list vs => "[" ++ String.intercalate ", " (pyReprList vs) ++ "]"
  | .dict ps => "\x7b" ++ String.intercalate ", " (pyReprPairs ps) ++ "\x7d"
where
  pyReprList : List Value → List String
    | [] => []
    | v :: vs => pyRepr v :: pyReprList vs
  pyReprPairs : List (String × Value) → List String
    | [] => []
    | p :: ps => ("'" ++ p.1 ++ "': " ++ pyRepr p.2) :: pyReprPairs ps

/-- Python `str` (`text_type`) for `Value`: a string converts to itself,
everything else as `repr`. -/
def pyStr : Value → String
  | .str s => s
  | v => pyRepr v

mutual

/-- Python `==` on `Value`: `bool` compares equal to the `int` of the same
numeric value (`True == 1` in Python), lists compare elementwise, dicts
compare by equal length and key-based value lookup (insertion order is
irrelevant, as for Python dicts). -/
def pyEq : Value → Value → Bool
  | .str a, .str b => a == b
  | .none, .none => true
  | .int a, .int b => a == b
  | .int a, .bool b => a == (if b then (1 : Int) else 0)
  | .bool a, .int b => (if a then (1 : Int) else 0) == b
  | .bool a, .bool b => a == b
  | .list as, .list bs => pyEqList as bs
  | .dict as, .dict bs => as.length == bs.length && pyEqDict as bs
  | _, _ => false
termination_by a _ => (sizeOf a, 0, 0)

/-- Elementwise Python `==` on lists. -/
def pyEqList : List Value → List Value → Bool
  | [], [] => true
  | a :: as, b :: bs => pyEq a b && pyEqList as bs
  | _, _ => false
termination_by as _ => (sizeOf as, 0, 0)

/-- One-directional dict inclusion: every pair of the first dict has an
equal value under the same key in the second. -/
def pyEqDict : List (String × Value) → List (String × Value) → Bool
  | [], _ => true
  | (k, v) :: ps, bs => pyLookupEq bs k v && pyEqDict ps bs
termination_by ps _ => (sizeOf ps, 2, 0)

/-- Does `key` map to a value Python-equal to `v` in the association list? -/
def pyLookupEq : List (String × Value) → String → Value → Bool
  | [], _, _ => false
  | q :: qs, k, v => if q.1 == k then pyEq v q.2 else pyLookupEq qs k v
termination_by qs _ v => (sizeOf v, 1, sizeOf qs)

end

/-- Python dict item lookup `item[key]` on the association-list model
(`None` keys etc. do not occur: all records have string keys). -/
def pyLookup : List (String × Value) → String → Option Value
  | [], _ => Option.none
  | p :: ps, k => if p.1 == k then Option.some p.2 else pyLookup ps k

/-- A record returned by the remote list operations: a Python dict. -/
abbrev Record := List (String × Value)

/-- Embeds `already_exists(key, value, items)` (wfapiclient.py lines
81–89): iterate over `items`; whenever `key in item and item[key] == value`
set the flag; return the flag. -/
def already_exists (key : String) (value : Value) (items : List Record) : Bool :=
  items.foldl
    (fun ex item =>
      match pyLookup item key with
      | Option.some w => if pyEq w value then true else ex
      | Option.none => ex)
    false

/-- Does `item` match the candidate pair `(key, value)` in the sense of the
loop body of `already_exists`: `key in item and item[key] == value`? -/
def matchesKV (key : String) (value : Value) (item : Record) : Bool :=
  match pyLookup item key with
  | Option.some w => pyEq w value
  | Option.none => false

theorem already_exists_foldl (key : String) (value : Value) (items : List Record) :
    ∀ acc : Bool,
      List.foldl
        (fun ex item =>
          match pyLookup item key with
          | Option.some w => if pyEq w value then true else ex
          | Option.none => ex)
        acc items
      = (acc || items.any (matchesKV key value)) := by
  induction items with
  | nil => intro acc; simp
  | cons i rest ih =>
      intro acc
      simp only [List.foldl_cons, List.any_cons]
      rw [ih]
      unfold matchesKV
      cases h : pyLookup i key with
      | none => simp [h]
      | some w =>
          by_cases hw : pyEq w value
          · simp [h, hw]
          · simp [h, hw]

theorem already_exists_eq_any (key : String) (value : Value) (items : List Record) :
    already_exists key value items = items.any (matchesKV key value) := by
  simpa [already_exists] using already_exists_foldl key value items false

/-! ## Runner: the session ledger and its report rendering -/

/-- Module constant `BLANK_STR` (line 51). -/
def BLANK_STR : String := ""

/-- Module constant `COMMA_SEP` (line 52). -/
def COMMA_SEP : String := ", "

/-- Module constant `SUCCESS` (line 53). -/
def SUCCESS : String := "success"

/-- Module constant `FAILURE` (line 54). -/
def FAILURE : String := "failure"

/-- The Python exceptions the embedded code can raise. -/
inductive PyError where
  | keyError (key : String)
  | nameError (n : String)
  | typeError (msg : String)

/-- Outcome of running an embedded method: a normal return, or a
propagating exception together with the state at raise time. -/
inductive PyResult (α : Type) where
  | ok (a : α)
  | raised (e : PyError) (a : α)

/-- The entry `Runner.log` builds (line 1377):
`[text_type(datetime.now()) + " | " + _caller + " | "] + [_result]`,
a two-element list of header string and payload. -/
def logEntry (caller ts : String) (result : Value) : List Value :=
  [Value.str (ts ++ " | " ++ caller ++ " | "), result]

/-- The `Runner` state relevant to the ledger: `_run_results`, an
`OrderedDict` modelled as an insertion-ordered association list from
bucket key to the bucket's list of entries. -/
structure Runner where
  run_results : List (String × List (List Value))

/-- `Runner.__init__` (lines 1338–1345): the `success` and `failure`
buckets are created once, in this order, both empty; no other bucket is
ever created. -/
def Runner.start : Runner :=
  ⟨[(SUCCESS, []), (FAILURE, [])]⟩

/-- `self._run_results[_key].append(entry)`: locate the bucket for `_key`
(`Option.none` models the `KeyError` of the `OrderedDict` item access when
the key is absent) and append the entry at its end. -/
def bucketAppend (buckets : List (String × List (List Value))) (key : String)
    (entry : List Value) : Option (List (String × List (List Value))) :=
  match buckets with
  | [] => Option.none
  | (k, es) :: rest =>
      if k == key then Option.some ((k, es ++ [entry]) :: rest)
      else (bucketAppend rest key entry).map (fun r => (k, es) :: r)

/-- `Runner.log(_caller, _key, _result)` (lines 1373–1379): build the
timestamped entry and append it to bucket `_key`. The source injects
`datetime` as a parameter; `ts` stands for `text_type(datetime.now())`.
A missing bucket raises `KeyError` before any mutation. -/
def Runner.log (r : Runner) (caller key : String) (result : Value) (ts : String) :
    PyResult Runner :=
  match bucketAppend r.run_results key (logEntry caller ts result) with
  | Option.some rr => .ok ⟨rr⟩
  | Option.none => .raised (.keyError key) r

/-- A sequence of `Runner.log` calls, all with the same status `key`;
`calls` lists one `(caller, payload, timestamp)` triple per call. -/
def logMany (r : Runner) (key : String) :
    List (String × Value × String) → PyResult Runner
  | [] => .ok r
  | (c, v, ts) :: rest =>
      match r.log c key v ts with
      | .ok r2 => logMany r2 key rest
      | .raised e r2 => .raised e r2

/-- `Runner.enquote(_str)` (lines 1382–1387): wrap in single quotes. -/
def enquote (s : String) : String := "'" ++ s ++ "'"

/-- `Runner.collapse_dict_to_list(_dict)` (lines 1390–1400): each key/value
pair becomes `": ".join([enquote(text_type(k)), enquote(text_type(v))])`,
in dict insertion order. -/
def collapse_dict_to_list (d : List (String × Value)) : List String :=
  d.map (fun p => enquote p.1 ++ ": " ++ enquote (pyStr p.2))

/-- `Runner.collapse_list_to_str(_list)` (lines 1403–1410):
`COMMA_SEP.join(_list)` over a list of strings. -/
def collapse_list_to_str (l : List String) : String :=
  String.intercalate COMMA_SEP l

/-- The body of the innermost loop of `Runner.process_results` (lines
1422–1437), rendering one element of a logged entry. Note the source's
`elif isinstance(result, list)` branch passes `_list` — the local variable
just reset to `[]` at line 1423 — to `collapse_list_to_str`, not `result`,
so every list payload renders as the empty string. -/
def renderResult (v : Value) : String :=
  match v with
  | .dict d => collapse_list_to_str (collapse_dict_to_list d)
  | .list _ => collapse_list_to_str []
  | .str s => s
  | .none => enquote "None"
  | _ => enquote "unknown!"

/-- The accumulation of `_li` over one entry's elements (lines 1421–1437). -/
def renderEntry (entry : List Value) : String :=
  entry.foldl (fun li v => li ++ renderResult v) BLANK_STR

/-- `Runner.process_results(_results)` (lines 1413–1440): nested loops
over buckets (dict insertion order) and entries (list order), building
`_html`, which starts as six spaces; one `<li>` node per entry. -/
def process_results (results : List (String × List (List Value))) : String :=
  results.foldl
    (fun html bucket =>
      bucket.2.foldl
        (fun h entry =>
          h ++ "<li class='" ++ bucket.1 ++ "'>" ++ renderEntry entry ++ "</li>")
        html)
    "      "

/-! ## Resource operations cited by the specification -/

/-- What the remote procedure does when the client actually issues the
call: return a value, raise an `xmlrpclib.Fault` (`faultCode`,
`faultString`), raise an `xmlrpclib.ProtocolError` (`url`, `errcode`,
`errmsg`), or raise any other exception (e.g. a `TypeError` for a local
call-shape mismatch — no `except` clause in the module catches those). -/
inductive RemoteOutcome where
  | ok (v : Value)
  | fault (faultCode faultString : Value)
  | protocolError (url errcode errmsg : Value)
  | exn (e : PyError)

/-- Result of one resource-wrapper operation: whether the remote mutating
procedure was actually invoked, and the control-flow outcome with the
resulting ledger state. -/
structure OpRun where
  remote_called : Bool
  result : PyResult Runner

/-- The string items of `items`, or `Option.none` at the first non-string
item (Python's `str.join` checks the items one at a time). -/
def collectStrs : List Value → Option (List String)
  | [] => Option.some []
  | .str s :: rest => (collectStrs rest).map (fun l => s :: l)
  | _ :: _ => Option.none

/-- `sep.join(items)` over Python values: raises `TypeError` when an item
is not a string (in particular when an `xmlrpclib` fault code or protocol
error code is an integer). -/
def strJoin (sep : String) (items : List Value) : Except PyError String :=
  match collectStrs items with
  | Option.some ss => .ok (String.intercalate sep ss)
  | Option.none => .error (.typeError "expected str instance")

/-- The `except Fault` handler shared verbatim by every operation (e.g.
lines 706–708): `_fault = COMMA_SEP.join([fault.faultCode,
fault.faultString])`, then `log(CALLER, FAILURE, _fault)`. The `join`
itself raises `TypeError` when `faultCode` is not a string, and that
exception propagates. -/
def handleFault (r : Runner) (caller ts : String) (code msg : Value) :
    PyResult Runner :=
  match strJoin COMMA_SEP [code, msg] with
  | .ok f => r.log caller FAILURE (.str f) ts
  | .error e => .raised e r

/-- The `except ProtocolError` handler shared verbatim by every operation
(e.g. lines 709–711): `_error = COMMA_SEP.join([error.url, error.errcode,
error.errmsg])`, then `log(CALLER, FAILURE, _error)`. -/
def handleProtocolError (r : Runner) (caller ts : String)
    (url errcode errmsg : Value) : PyResult Runner :=
  match strJoin COMMA_SEP [url, errcode, errmsg] with
  | .ok s => r.log caller FAILURE (.str s) ts
  | .error e => .raised e r

/-- `Cron.create_cron_job(line)` (lines 696–714), with the remote call's
behaviour supplied as `outcome`; `CALLER` evaluates to "CREATE_CRON_JOB".
There is no existence guard: the remote call is always issued. -/
def create_cron_job (r : Runner) (ts : String) (outcome : RemoteOutcome) : OpRun :=
  match outcome with
  | .ok v => ⟨true, r.log "CREATE_CRON_JOB" SUCCESS v ts⟩
  | .fault c m => ⟨true, handleFault r "CREATE_CRON_JOB" ts c m⟩
  | .protocolError u ec em => ⟨true, handleProtocolError r "CREATE_CRON_JOB" ts u ec em⟩
  | .exn e => ⟨true, .raised e r⟩

/-- `Mailbox.create_mailbox(mailbox, ...)` (lines 106–139); `existing` is
what `self.list_mailboxes()` returned. When the guard
`not already_exists('name', mailbox, ...)` passes, the `try` body
evaluates the unbound name `manual_procmail` (line 127 — the parameter is
spelled `manual_procmailrc`), so a `NameError` is raised while building
the argument list, before the remote procedure is called, and neither
`except` clause (`Fault`, `ProtocolError`) catches it. On the other
branch the precondition failure is logged. The remote `create_mailbox`
procedure is therefore never invoked on any path. -/
def create_mailbox (r : Runner) (ts mailbox : String) (existing : List Record) :
    OpRun :=
  if !(already_exists "name" (.str mailbox) existing) then
    ⟨false, .raised (.nameError "manual_procmail") r⟩
  else
    ⟨false, r.log "CREATE_MAILBOX" FAILURE
        (.str ("Can't create Mailbox '" ++ mailbox ++ "' that already exists.")) ts⟩

/-- `Application.create_app(name, ...)` (lines 625–656). The source's
guard is `if already_exists(...)` (line 637, not negated): the remote
`create_app` procedure is issued precisely when an application of that
name already exists, and on its normal return the result is logged with
status FAILURE (line 652, under the `#try succeeded` comment). When no
such application exists, the else branch logs
`"Can't create application '...' that already exists."` (lines 654–655). -/
def create_app (r : Runner) (ts name : String) (existing : List Record)
    (outcome : RemoteOutcome) : OpRun :=
  if already_exists "name" (.str name) existing then
    match outcome with
    | .ok v => ⟨true, r.log "CREATE_APP" FAILURE v ts⟩
    | .fault c m => ⟨true, handleFault r "CREATE_APP" ts c m⟩
    | .protocolError u ec em => ⟨true, handleProtocolError r "CREATE_APP" ts u ec em⟩
    | .exn e => ⟨true, .raised e r⟩
  else
    ⟨false, r.log "CREATE_APP" FAILURE
        (.str ("Can't create application '" ++ name ++ "' that already exists.")) ts⟩

/-- `Database.revoke_db_permissions(username, database, db_type)` (lines
1058–1085). When the guard passes, the `try` body evaluates the unbound
name `password` (line 1072 — not a parameter of this method), raising a
`NameError` before the remote call, so the `else`-branch
`log(CALLER, FAILURE, self._result)` at line 1081 is unreachable and the
remote procedure is never invoked. -/
def revoke_db_permissions (r : Runner) (ts username : String)
    (existing : List Record) : OpRun :=
  if already_exists "username" (.str username) existing then
    ⟨false, .raised (.nameError "password") r⟩
  else
    ⟨false, r.log "REVOKE_DB_PERMISSIONS" FAILURE
        (.str ("Can't revoke permission for non-existent '" ++ username
          ++ "' database user.")) ts⟩

/-! ## Helper lemmas -/

theorem bucketAppend_success (ss fs : List (List Value)) (e : List Value) :
    bucketAppend [(SUCCESS, ss), (FAILURE, fs)] SUCCESS e
      = Option.some [(SUCCESS, ss ++ [e]), (FAILURE, fs)] := by
  simp [bucketAppend]

theorem bucketAppend_failure (ss fs : List (List Value)) (e : List Value) :
    bucketAppend [(SUCCESS, ss), (FAILURE, fs)] FAILURE e
      = Option.some [(SUCCESS, ss), (FAILURE, fs ++ [e])] := by
  simp [bucketAppend, SUCCESS, FAILURE]

theorem bucketAppend_miss (ss fs : List (List Value)) (e : List Value)
    (key : String) (h1 : SUCCESS ≠ key) (h2 : FAILURE ≠ key) :
    bucketAppend [(SUCCESS, ss), (FAILURE, fs)] key e = Option.none := by
  have h1' : (SUCCESS == key) = false := beq_eq_false_iff_ne.mpr h1
  have h2' : (FAILURE == key) = false := beq_eq_false_iff_ne.mpr h2
  simp [bucketAppend, h1', h2']

theorem log_success_eq (ss fs : List (List Value)) (caller : String) (v : Value)
    (ts : String) :
    Runner.log ⟨[(SUCCESS, ss), (FAILURE, fs)]⟩ caller SUCCESS v ts
      = .ok ⟨[(SUCCESS, ss ++ [logEntry caller ts v]), (FAILURE, fs)]⟩ := by
  simp [Runner.log, bucketAppend_success]

theorem log_failure_eq (ss fs : List (List Value)) (caller : String) (v : Value)
    (ts : String) :
    Runner.log ⟨[(SUCCESS, ss), (FAILURE, fs)]⟩ caller FAILURE v ts
      = .ok ⟨[(SUCCESS, ss), (FAILURE, fs ++ [logEntry caller ts v])]⟩ := by
  simp [Runner.log, bucketAppend_failure]

/-! ## The claims -/

/-- C6: logging is append-only and order-preserving — starting from any
ledger whose buckets hold `ss` and `fs`, a sequence of `log` calls with
status `success` (resp. `failure`) returns normally and leaves the bucket
equal to its old contents followed by one entry per call, in call order,
with the other bucket untouched; no call removes or mutates an existing
entry. On the fresh `Runner.start` state (`ss = fs = []`) the bucket holds
exactly the `N` new entries. -/
theorem claim_C6_log_append_only (ss fs : List (List Value))
    (calls : List (String × Value × String)) :
    logMany ⟨[(SUCCESS, ss), (FAILURE, fs)]⟩ SUCCESS calls
      = .ok ⟨[(SUCCESS, ss ++ calls.map (fun c => logEntry c.1 c.2.2 c.2.1)),
              (FAILURE, fs)]⟩
    ∧ logMany ⟨[(SUCCESS, ss), (FAILURE, fs)]⟩ FAILURE calls
      = .ok ⟨[(SUCCESS, ss),
              (FAILURE, fs ++ calls.map (fun c => logEntry c.1 c.2.2 c.2.1))]⟩ := by
  induction calls generalizing ss fs with
  | nil => simp [logMany]
  | cons c rest ih =>
      obtain ⟨caller, v, ts⟩ := c
      constructor
      · have h1 := (ih (ss ++ [logEntry caller ts v]) fs).1
        simp only [logMany, log_success_eq]
        rw [h1]
        simp
      · have h2 := (ih ss (fs ++ [logEntry caller ts v])).2
        simp only [logMany, log_failure_eq]
        rw [h2]
        simp

/-- C9 (implicit): `Runner.__init__` creates only the `success` and
`failure` buckets, so `Runner.log` with any other status key raises
`KeyError` on the `self._run_results[_key]` item access, before any
mutation: the run log is returned unchanged. -/
theorem claim_C9_log_unknown_key (ss fs : List (List Value))
    (caller key : String) (v : Value) (ts : String)
    (h1 : key ≠ SUCCESS) (h2 : key ≠ FAILURE) :
    Runner.log ⟨[(SUCCESS, ss), (FAILURE, fs)]⟩ caller key v ts
      = .raised (.keyError key) ⟨[(SUCCESS, ss), (FAILURE, fs)]⟩ := by
  have hm := bucketAppend_miss ss fs (logEntry caller ts v) key
    (fun h => h1 h.symm) (fun h => h2 h.symm)
  simp [Runner.log, hm]

/-- C9 witness: logging with the status key "warning" on a fresh runner
raises `KeyError "warning"` and leaves the run log unchanged. -/
theorem claim_C9_witness :
    Runner.log ⟨[(SUCCESS, []), (FAILURE, [])]⟩ "C" "warning" Value.none "t"
      = .raised (.keyError "warning") ⟨[(SUCCESS, []), (FAILURE, [])]⟩ :=
  claim_C9_log_unknown_key [] [] "C" "warning" Value.none "t"
    (by decide) (by decide)

/-- Concatenation of a list of strings, the shape of the rendered report
body (one string per emitted `<li>` node, in order). -/
def joinAll : List String → String
  | [] => ""
  | s :: rest => s ++ joinAll rest

/-- The report node `process_results` emits for one logged entry of the
bucket keyed `cls`. -/
def liTag (cls : String) (entry : List Value) : String :=
  "<li class='" ++ cls ++ "'>" ++ renderEntry entry ++ "</li>"

theorem joinAll_append (a b : List String) :
    joinAll (a ++ b) = joinAll a ++ joinAll b := by
  induction a with
  | nil => simp [joinAll]
  | cons s rest ih => simp [joinAll, ih, String.append_assoc]

theorem foldl_li_eq (cls : String) (entries : List (List Value)) :
    ∀ acc : String,
      entries.foldl
        (fun h entry =>
          h ++ "<li class='" ++ cls ++ "'>" ++ renderEntry entry ++ "</li>")
        acc
      = acc ++ joinAll (entries.map (liTag cls)) := by
  induction entries with
  | nil => intro acc; simp [joinAll]
  | cons e rest ih =>
      intro acc
      simp only [List.foldl_cons, List.map_cons, joinAll]
      rw [ih]
      simp [liTag, String.append_assoc]

/-- C7: report structure and order — rendering the two-bucket log emits
one `<li>` node per logged result, tagged with its own bucket key, with
the whole success bucket first and insertion order preserved inside each
bucket; in particular a log of 2 success entries and 1 failure entry
yields exactly the three nodes `liTag success e1`, `liTag success e2`,
`liTag failure e3`, in that order. -/
theorem claim_C7_report_order (ss fs : List (List Value))
    (e1 e2 e3 : List Value) :
    process_results [(SUCCESS, ss), (FAILURE, fs)]
      = "      " ++ joinAll (ss.map (liTag SUCCESS) ++ fs.map (liTag FAILURE))
    ∧ process_results [(SUCCESS, [e1, e2]), (FAILURE, [e3])]
      = "      "
          ++ joinAll [liTag SUCCESS e1, liTag SUCCESS e2, liTag FAILURE e3] := by
  constructor
  · simp only [process_results, List.foldl_cons, List.foldl_nil]
    rw [foldl_li_eq, foldl_li_eq, joinAll_append]
    simp [String.append_assoc]
  · simp [process_results, liTag, joinAll, String.append_assoc]

/-- C8 counterexample: a sequence payload with the scalar leaves "a" and
"b" renders as the empty string — `process_results` passes the local
`_list`, freshly reset to `[]`, to `collapse_list_to_str` — and not as
the comma-separated quoted list `'a', 'b'` the claim requires. -/
theorem claim_C8_counterexample :
    renderResult (Value.list [Value.str "a", Value.str "b"]) = ""
    ∧ renderResult (Value.list [Value.str "a", Value.str "b"]) ≠ "'a', 'b'" := by
  constructor
  · rfl
  · decide

theorem enquote_pair_eq (x y : String) :
    enquote x ++ ": " ++ enquote y = "'" ++ x ++ "': '" ++ y ++ "'" := by
  have lit : ∀ t : String, ("': " : String) ++ ("'" ++ t) = "': '" ++ t := by
    intro t
    rw [← String.append_assoc]
    have h : ("': " : String) ++ "'" = "': '" := rfl
    rw [h]
  simp [enquote, String.append_assoc, lit]

/-- C8 amended (the policy the code implements): a mapping payload renders
as the comma-separated list of `'key': 'value'` pairs, the value through a
single (non-recursive) Python `str` conversion; a (non-mapping) sequence
payload renders as the empty string; a plain string renders verbatim;
`None` renders as the quoted placeholder `'None'`; any other scalar
renders as `'unknown!'`. -/
theorem claim_C8_amended (d : List (String × Value)) (s : String)
    (vs : List Value) :
    renderResult (Value.dict d)
      = String.intercalate ", "
          (d.map (fun p => "'" ++ p.1 ++ "': '" ++ pyStr p.2 ++ "'"))
    ∧ renderResult (Value.list vs) = ""
    ∧ renderResult (Value.str s) = s
    ∧ renderResult Value.none = "'None'"
    ∧ (∀ n : Int, renderResult (Value.int n) = "'unknown!'")
    ∧ (∀ b : Bool, renderResult (Value.bool b) = "'unknown!'") := by
  refine ⟨?_, rfl, rfl, rfl, fun n => rfl, fun b => rfl⟩
  simp only [renderResult, collapse_list_to_str, collapse_dict_to_list, COMMA_SEP]
  congr 1
  exact List.map_congr_left fun p _ => enquote_pair_eq p.1 (pyStr p.2)

/-- C1 counterexample: both records of the collection match the candidate
pair (key "name", value "foo"), so the claimed exactly-one policy demands
`false`; `already_exists` nevertheless returns `true` — its loop only
ever sets the flag, it never counts matches. -/
theorem claim_C1_counterexample :
    ([[("name", Value.str "foo")], [("name", Value.str "foo")]].countP
        (matchesKV "name" (Value.str "foo")) = 2)
    ∧ already_exists "name" (Value.str "foo")
        [[("name", Value.str "foo")], [("name", Value.str "foo")]] = true := by
  constructor
  · simp [List.countP_cons, matchesKV, pyLookup, pyEq]
  · simp [already_exists, pyLookup, pyEq]

/-- C1 amended: the existence check implements an at-least-one policy —
it returns true iff at least one record of the collection matches the
candidate pair; in particular two or more matching records still yield
true, not false. -/
theorem claim_C1_amended (key : String) (value : Value) (items : List Record) :
    already_exists key value items = true
      ↔ 1 ≤ items.countP (matchesKV key value) := by
  rw [already_exists_eq_any, List.any_eq_true]
  constructor
  · rintro ⟨item, hmem, hmatch⟩
    have h := (List.countP_pos_iff (p := matchesKV key value) (l := items)).mpr
      ⟨item, hmem, hmatch⟩
    omega
  · intro h
    exact (List.countP_pos_iff (p := matchesKV key value) (l := items)).mp
      (by omega)

/-- C10 (implicit): `already_exists` is true iff at least one record maps
the key to the value (the loop's `key in item and item[key] == value`
condition), and it distributes over appending as a disjunction, so
appending further records never turns a true result false. -/
theorem claim_C10_monotone (key : String) (value : Value)
    (items more : List Record) :
    (already_exists key value items = true
      ↔ ∃ item ∈ items, matchesKV key value item = true)
    ∧ (already_exists key value (items ++ more)
        = (already_exists key value items || already_exists key value more)) := by
  constructor
  · rw [already_exists_eq_any]
    exact List.any_eq_true
  · rw [already_exists_eq_any, already_exists_eq_any, already_exists_eq_any,
      List.any_append]

/-- C2 (failing input): `create_mailbox("box")` with no mailbox named
"box" listed passes the existence guard, and the `try` body then raises
`NameError` on the unbound name `manual_procmail` (line 127; the
parameter is spelled `manual_procmailrc`); the exception escapes the
operation, no RunResult is appended, and the remote procedure is never
called — contradicting the never-raises / exactly-one-entry policy. The
second conjunct shows the argument-error mode escaping
`create_cron_job`, whose `except` clauses cover only `Fault` and
`ProtocolError`. -/
theorem claim_C2_failing :
    create_mailbox Runner.start "t0" "box" []
      = ⟨false, .raised (.nameError "manual_procmail") Runner.start⟩
    ∧ create_cron_job Runner.start "t0" (.exn (.typeError "argument mismatch"))
      = ⟨true, .raised (.typeError "argument mismatch") Runner.start⟩ := by
  constructor
  · simp [create_mailbox, already_exists]
  · rfl

/-- C3 (failing input): with an application named "a" already listed, the
remote call is issued and returns normally with payload `{'id': 1}`, yet
`create_app` logs that payload with status FAILURE (line 652, on the
branch the source itself marks `#try succeeded`); `revoke_db_permissions`
can never log a success at all — once its guard passes, the unbound name
`password` (line 1072) raises `NameError` before the remote call. -/
theorem claim_C3_failing :
    create_app Runner.start "t0" "a" [[("name", Value.str "a")]]
        (.ok (Value.dict [("id", Value.int 1)]))
      = ⟨true, .ok ⟨[(SUCCESS, []),
          (FAILURE,
            [logEntry "CREATE_APP" "t0" (Value.dict [("id", Value.int 1)])])]⟩⟩
    ∧ revoke_db_permissions Runner.start "t0" "u" [[("username", Value.str "u")]]
      = ⟨false, .raised (.nameError "password") Runner.start⟩ := by
  have hex : already_exists "name" (Value.str "a")
      [[("name", Value.str "a")]] = true := by
    simp [already_exists, pyLookup, pyEq]
  have hu : already_exists "username" (Value.str "u")
      [[("username", Value.str "u")]] = true := by
    simp [already_exists, pyLookup, pyEq]
  constructor
  · simp [create_app, hex, Runner.start, log_failure_eq]
  · simp [revoke_db_permissions, hu]

/-- C4 (failing input): an application fault with the integer code 301
and message "duplicate" — `COMMA_SEP.join([fault.faultCode,
fault.faultString])` (line 707) raises `TypeError`, because the fault
code is not a string; the exception escapes `create_cron_job` and no
failure entry is appended. The second conjunct shows that if both fault
components were strings the handler would log the combined description,
as the claim intends. -/
theorem claim_C4_failing :
    create_cron_job Runner.start "t0"
        (.fault (Value.int 301) (Value.str "duplicate"))
      = ⟨true, .raised (.typeError "expected str instance") Runner.start⟩
    ∧ create_cron_job Runner.start "t0"
        (.fault (Value.str "301") (Value.str "duplicate"))
      = ⟨true, .ok ⟨[(SUCCESS, []),
          (FAILURE,
            [logEntry "CREATE_CRON_JOB" "t0" (Value.str "301, duplicate")])]⟩⟩ := by
  constructor
  · rfl
  · rfl

/-- C5 (failing input): `create_app("a")` with `{'name': 'a'}` already
listed — the source's guard (line 637) is not negated, so the remote
create procedure IS issued against the existing resource (first
conjunct), while with no application named "b" listed no remote call
happens and the message logged claims "b" already exists (second
conjunct). The third conjunct shows `create_mailbox` honoring the
precondition policy: create against the existing "foo" aborts without a
remote call and the failure message names "foo". -/
theorem claim_C5_failing :
    (create_app Runner.start "t0" "a" [[("name", Value.str "a")]]
        (.ok (Value.str "made"))).remote_called = true
    ∧ create_app Runner.start "t0" "b" [] (.ok (Value.str "made"))
      = ⟨false, .ok ⟨[(SUCCESS, []),
          (FAILURE,
            [logEntry "CREATE_APP" "t0"
              (Value.str "Can't create application 'b' that already exists.")])]⟩⟩
    ∧ create_mailbox Runner.start "t0" "foo" [[("name", Value.str "foo")]]
      = ⟨false, .ok ⟨[(SUCCESS, []),
          (FAILURE,
            [logEntry "CREATE_MAILBOX" "t0"
              (Value.str "Can't create Mailbox 'foo' that already exists.")])]⟩⟩ := by
  have hex : already_exists "name" (Value.str "a")
      [[("name", Value.str "a")]] = true := by
    simp [already_exists, pyLookup, pyEq]
  have hfoo : already_exists "name" (Value.str "foo")
      [[("name", Value.str "foo")]] = true := by
    simp [already_exists, pyLookup, pyEq]
  refine ⟨?_, rfl, ?_⟩
  · simp [create_app, hex]
  · simp [create_mailbox, hfoo, Runner.start, log_failure_eq]

end WF
